import Mathlib

/-!
Verification of the rendering core of `coolamit/mermaid-cli` (Go).

The development shallowly embeds the Go sources under `internal/renderer`
(`template.go`, `renderer.go`, `browser.go`), the `internal/config` and
`internal/icons` helpers they use, and the fragments of the Go standard
library (`encoding/json` string escaping) and of the in-page JavaScript
that the rendering pipeline depends on.  Protocol round trips to the
browser (chromedp) are modelled by an explicit environment that records,
for every round trip the code may issue, whether it succeeds and what the
page-side JavaScript would compute; browser-side mutable state (the
emulation background-color override, the viewport) is threaded explicitly.
-/

namespace MermaidCLI

/-! ## Go `encoding/json` string escaping (used by `json.Marshal` on strings)

`json.Marshal` escapes `"` and `\`, renders `\n`, `\r`, `\t` with their
two-character escapes, other control characters as `\u00XX`, and — because
HTML escaping is on by default — `<`, `>`, `&` as `<`, `>`,
`&`, and U+2028/U+2029 as ` `/` `.  All other characters are
emitted verbatim. -/

def hexDigit (n : Nat) : Char :=
  match n % 16 with
  | 0 => '0' | 1 => '1' | 2 => '2' | 3 => '3'
  | 4 => '4' | 5 => '5' | 6 => '6' | 7 => '7'
  | 8 => '8' | 9 => '9' | 10 => 'a' | 11 => 'b'
  | 12 => 'c' | 13 => 'd' | 14 => 'e' | _ => 'f'

def goJSONEscapeChar (c : Char) : List Char :=
  if c = '"' then ['\\', '"']
  else if c = '\\' then ['\\', '\\']
  else if c = '\n' then ['\\', 'n']
  else if c = '\r' then ['\\', 'r']
  else if c = '\t' then ['\\', 't']
  else if c = '<' then ['\\', 'u', '0', '0', '3', 'c']
  else if c = '>' then ['\\', 'u', '0', '0', '3', 'e']
  else if c = '&' then ['\\', 'u', '0', '0', '2', '6']
  else if c.toNat < 32 then ['\\', 'u', '0', '0', hexDigit (c.toNat / 16), hexDigit (c.toNat % 16)]
  else if c.toNat = 8232 then ['\\', 'u', '2', '0', '2', '8']
  else if c.toNat = 8233 then ['\\', 'u', '2', '0', '2', '9']
  else [c]

/-- The JSON string literal `json.Marshal` produces for a Go string. -/
def goJSONQuote (s : String) : String :=
  ⟨'"' :: (s.data.flatMap goJSONEscapeChar) ++ ['"']⟩

/-! ## Go values and `json.Marshal` on `map[string]interface{}`

`config.MermaidConfig` is `map[string]interface{}` (config.go); its
`ToJSON` method is a plain `json.Marshal` call.  A Go `interface{}` value
is modelled as a tree; `unserializable` stands for values `json.Marshal`
rejects (func, chan, complex, …).  JSON numbers are modelled at integer
precision (their formatting is immaterial here); a Go map serializes its
keys in sorted order — the model takes the entry list as already ordered. -/

inductive GoValue where
  | null : GoValue
  | bool (b : Bool) : GoValue
  | num (n : Int) : GoValue
  | str (s : String) : GoValue
  | arr (xs : List GoValue) : GoValue
  | obj (fields : List (String × GoValue)) : GoValue
  | unserializable (typeName : String) : GoValue

def joinComma : List String → String
  | [] => ""
  | [x] => x
  | x :: xs => x ++ "," ++ joinComma xs

mutual

def marshalGoValue : GoValue → Except String String
  | .null => .ok "null"
  | .bool true => .ok "true"
  | .bool false => .ok "false"
  | .num n => .ok (toString n)
  | .str s => .ok (goJSONQuote s)
  | .arr xs => (marshalGoList xs).map (fun parts => "[" ++ joinComma parts ++ "]")
  | .obj kvs => (marshalGoObj kvs).map (fun parts => "\x7b" ++ joinComma parts ++ "\x7d")
  | .unserializable t => .error ("json: unsupported type: " ++ t)

def marshalGoList : List GoValue → Except String (List String)
  | [] => .ok []
  | v :: vs => do
    let s ← marshalGoValue v
    let rest ← marshalGoList vs
    .ok (s :: rest)

def marshalGoObj : List (String × GoValue) → Except String (List String)
  | [] => .ok []
  | (k, v) :: vs => do
    let s ← marshalGoValue v
    let rest ← marshalGoObj vs
    .ok ((goJSONQuote k ++ ":" ++ s) :: rest)

end

/-- `config.MermaidConfig` (`map[string]interface{}`), as its ordered entry list. -/
def MermaidConfig := List (String × GoValue)

/-- `(c MermaidConfig) ToJSON() (string, error)` — `json.Marshal(c)` (config.go). -/
def MermaidConfig.ToJSON (c : MermaidConfig) : Except String String :=
  marshalGoValue (.obj c)

/-! ## `internal/icons` -/

/-- `icons.IconPack`. -/
structure IconPack where
  Name : String
  URL : String

/-- Go `%q` quoting (`strconv.Quote`) as used by `fmt.Sprintf` in
`GenerateIconPackJS`; modelled with the same basic escapes for `"`, `\`
and control characters (the `%q`/JSON differences on exotic characters are
immaterial here). -/
def goQuote (s : String) : String :=
  ⟨'"' :: (s.data.flatMap (fun c =>
    if c = '"' then ['\\', '"']
    else if c = '\\' then ['\\', '\\']
    else if c = '\n' then ['\\', 'n']
    else if c = '\r' then ['\\', 'r']
    else if c = '\t' then ['\\', 't']
    else if c.toNat < 32 then ['\\', 'u', '0', '0', hexDigit (c.toNat / 16), hexDigit (c.toNat % 16)]
    else [c])) ++ ['"']⟩

/-- One entry of the generated `registerIconPacks` array (icons.go). -/
def iconPackEntry (p : IconPack) : String :=
  "  \x7b\n    name: " ++ goQuote p.Name ++
  ",\n    loader: () => fetch(" ++ goQuote p.URL ++
  ").then((res) => res.json()).catch(() => console.error(\"Failed to fetch icon: " ++
  p.Name ++ "\"))\n  \x7d,\n"

/-- `icons.GenerateIconPackJS` (icons.go). -/
def GenerateIconPackJS (packs : List IconPack) : String :=
  if packs.isEmpty then ""
  else "mermaid.registerIconPacks([\n" ++ String.join (packs.map iconPackEntry) ++ "]);\n"

/-! ## `internal/renderer/template.go` -/

/-- The two `go:embed` script assets (`web.MermaidJS`, `web.MermaidZenUMLJS`);
their contents are opaque to the renderer. -/
structure WebAssets where
  MermaidJS : String
  MermaidZenUMLJS : String

/-- `renderer.RenderOpts` (template.go). -/
structure RenderOpts where
  MermaidConfig : MermaidConfig
  BackgroundColor : String
  CSS : String
  SVGId : String
  Width : Int
  Height : Int
  Scale : Int
  PdfFit : Bool
  SvgFit : Bool
  IconPacks : List IconPack

/- The literal text chunks written by `BuildPageHTML` (template.go), in
`sb.WriteString`/`fmt.Sprintf` order.  `\x7b`/`\x7d` are literal braces and
`\x27` literal apostrophes. -/

def pageChunk0 : String :=
  "<!DOCTYPE html>\n<html>\n<head>\n  <style>\n    body \x7b margin: 0; padding: 0; font-family: sans-serif; \x7d\n  </style>\n</head>\n<body>\n  <div id=\"container\"></div>\n  <script>"

def pageChunk1 : String := "</script>\n  <script>"

def pageChunk2 : String :=
  "</script>\n  <script>\n    async function renderDiagram() \x7b\n      try \x7b\n        const zenuml = globalThis[\x27mermaid-zenuml\x27];\n        if (zenuml && zenuml.default) \x7b\n          await mermaid.registerExternalDiagrams([zenuml.default]);\n        \x7d else if (zenuml) \x7b\n          await mermaid.registerExternalDiagrams([zenuml]);\n        \x7d\n"

def fmtChunk0 : String := "\n        mermaid.initialize(\x7b startOnLoad: false, ..."

def fmtChunk1 : String := " \x7d);\n\n        const definition = "

def fmtChunk2 : String := ";\n        const svgId = "

def fmtChunk3 : String := " || \x27my-svg\x27;\n        const backgroundColor = "

def fmtChunk4 : String := ";\n        const myCSS = "

def fmtChunk5 : String :=
  ";\n\n        const container = document.getElementById(\x27container\x27);\n        const \x7b svg: svgText \x7d = await mermaid.render(svgId, definition, container);\n        container.innerHTML = svgText;\n\n        const svg = container.getElementsByTagName(\x27svg\x27)[0];\n        if (svg && svg.style) \x7b\n          svg.style.backgroundColor = backgroundColor;\n        \x7d\n\n        if (myCSS) \x7b\n          const style = document.createElementNS(\x27http://www.w3.org/2000/svg\x27, \x27style\x27);\n          style.appendChild(document.createTextNode(myCSS));\n          svg.appendChild(style);\n        \x7d\n\n        // Extract metadata\n        let title = null;\n        let desc = null;\n        if (svg.firstChild && svg.firstChild.nodeName === \x27title\x27) \x7b\n          title = svg.firstChild.textContent;\n        \x7d\n        for (const node of svg.children) \x7b\n          if (node.nodeName === \x27desc\x27) \x7b\n            desc = node.textContent;\n            break;\n          \x7d\n        \x7d\n\n        window.__mmd_result = \x7b title, desc, success: true \x7d;\n      \x7d catch (e) \x7b\n        window.__mmd_result = \x7b error: e.message || String(e), success: false \x7d;\n      \x7d\n    \x7d\n    renderDiagram();\n  </script>\n</body>\n</html>"

/-- `renderer.BuildPageHTML` (template.go).  The four string options are
passed through `json.Marshal` (which never fails on a Go string, so the
model applies `goJSONQuote` directly); the configuration mapping goes
through `MermaidConfig.ToJSON`, the only fallible step. -/
def BuildPageHTML (web : WebAssets) (definition : String) (opts : RenderOpts) :
    Except String String :=
  match MermaidConfig.ToJSON opts.MermaidConfig with
  | .error e => .error ("failed to serialize mermaid config: " ++ e)
  | .ok mermaidConfigJSON =>
    let definitionJSON := goJSONQuote definition
    let svgIdJSON := goJSONQuote opts.SVGId
    let bgColorJSON := goJSONQuote opts.BackgroundColor
    let cssJSON := goJSONQuote opts.CSS
    let iconPackJS := GenerateIconPackJS opts.IconPacks
    .ok (pageChunk0 ++ web.MermaidJS ++ pageChunk1 ++ web.MermaidZenUMLJS ++
      pageChunk2 ++ iconPackJS ++ fmtChunk0 ++ mermaidConfigJSON ++ fmtChunk1 ++
      definitionJSON ++ fmtChunk2 ++ svgIdJSON ++ fmtChunk3 ++ bgColorJSON ++
      fmtChunk4 ++ cssJSON ++ fmtChunk5)

/-! ## `internal/renderer/renderer.go`: data model

Geometry uses `ℚ` for Go `float64`; every value the pipeline actually
feeds through these fields is produced by `Math.floor`/`Math.ceil` in the
page script and is an exactly-representable integer, so rationals model
the arithmetic faithfully. -/

/-- `cdp.RGBA`. -/
structure RGBA where
  r : Nat
  g : Nat
  b : Nat
  a : Nat
deriving DecidableEq

/-- The fully-transparent black passed to `SetDefaultBackgroundColorOverride`. -/
def transparentBlack : RGBA := ⟨0, 0, 0, 0⟩

/-- `renderer.clipRect` (renderer.go). -/
structure clipRect where
  x : ℚ
  y : ℚ
  width : ℚ
  height : ℚ
deriving DecidableEq

/-- The record the in-page driver script stores on `window.__mmd_result`
(template.go): `\x7btitle, desc, success: true\x7d` on success,
`\x7berror, success: false\x7d` on failure.  Mirrors the Go-side
`renderResult` unmarshal target in `Render`. -/
structure MmdResult where
  title : Option String
  desc : Option String
  success : Bool
  error : String
deriving DecidableEq

/-- The rendered vector root inside `#container`, with the attributes the
extraction scripts read or write, and its `getBoundingClientRect` box. -/
structure SVGElement where
  viewBox : Option String
  width : Option String
  height : Option String
  styleMaxWidth : Option String
  rect : clipRect
deriving DecidableEq

/-- The page state after the driver script has run: the vector root (if
any) and the completion-record slot. -/
structure PageState where
  svg : Option SVGElement
  mmdResult : Option MmdResult
deriving DecidableEq

/-- Browser-side emulation state mutated by the renderer: the
`SetDeviceMetricsOverride` viewport and the
`SetDefaultBackgroundColorOverride` color (`none` = no override, the
browser default). -/
structure EmuState where
  viewportWidth : Int
  viewportHeight : Int
  bgOverride : Option RGBA
deriving DecidableEq

/-- Outcome of each chromedp round trip the renderer may issue, supplied
by the environment (the browser process is a black box; `.error e` is a
transport failure carrying chromedp's error text). -/
structure CdpEnv where
  browserStart : Except String Unit
  setViewport : Except String Unit
  navigate : Except String Unit
  setContent : Except String Unit
  waitReady : Except String Unit
  timeoutEval : Except String Unit
  resultEval : Except String Unit
  extractEval : Except String Unit
  boundsEval : Except String Unit
  resizeViewport : Except String Unit
  setBgOverride : Except String Unit
  captureShot : Except String String
  resetBgOverride : Except String Unit
  printPDF : Except String String

/-! ## JavaScript helpers used by the extraction scripts -/

/-- Split a character list at every whitespace character, keeping empty
pieces (the analogue of splitting on the single-character pattern `/\s/`). -/
def splitEachWs : List Char → List (List Char)
  | [] => [[]]
  | c :: rest =>
    if c.isWhitespace then [] :: splitEachWs rest
    else
      match splitEachWs rest with
      | [] => [[c]]
      | p :: ps => (c :: p) :: ps

/-- JavaScript `String.prototype.split(/\s+/)`: split on maximal
whitespace runs.  Obtained from the single-character split by dropping the
interior empty pieces (adjacent separators form one run) while keeping an
empty first (resp. last) component for a leading (resp. trailing) run. -/
def jsSplitWs (s : String) : List String :=
  match (splitEachWs s.data).map (fun l => String.mk l) with
  | [] => [""]
  | x :: xs =>
    match xs.reverse with
    | [] => [x]
    | last :: midRev => x :: (midRev.reverse.filter (fun p => p ≠ "")) ++ [last]

/-- `XMLSerializer().serializeToString` on the vector root, rendering the
attributes the model tracks; always nonempty (starts with `<svg`), so the
`svgXML == ""` check in the Go code corresponds exactly to the absence of
the element. -/
def serializeSVG (svg : SVGElement) : String :=
  let attr : String → Option String → String := fun name v =>
    match v with
    | none => ""
    | some s => " " ++ name ++ "=\"" ++ s ++ "\""
  let style : Option String → String := fun v =>
    match v with
    | none => ""
    | some s => " style=\"max-width: " ++ s ++ ";\""
  "<svg" ++ attr "viewBox" svg.viewBox ++ attr "width" svg.width ++
    attr "height" svg.height ++ style svg.styleMaxWidth ++ "></svg>"

/-- The DOM mutation performed by the `extractSVGFit` page script
(renderer.go): if a `viewBox` attribute exists and splits into exactly
four whitespace-separated parts, overwrite `width`/`height` with the third
and fourth part and remove the `max-width` style; otherwise leave the
element untouched. -/
def extractSVGFitTransform (svg : SVGElement) : SVGElement :=
  match svg.viewBox with
  | none => svg
  | some vb =>
    let parts := jsSplitWs vb
    if h : parts.length = 4 then
      { svg with
        width := some (parts.get ⟨2, by omega⟩),
        height := some (parts.get ⟨3, by omega⟩),
        styleMaxWidth := none }
    else svg

/-- `renderer.extractSVG` (renderer.go). -/
def extractSVG (env : CdpEnv) (page : PageState) : Except String String :=
  match env.extractEval with
  | .error e => .error ("failed to extract SVG: " ++ e)
  | .ok _ =>
    match page.svg with
    | none => .error "no SVG element found in rendered output"
    | some svg => .ok (serializeSVG svg)

/-- `renderer.extractSVGFit` (renderer.go). -/
def extractSVGFit (env : CdpEnv) (page : PageState) : Except String String :=
  match env.extractEval with
  | .error e => .error ("failed to extract SVG: " ++ e)
  | .ok _ =>
    match page.svg with
    | none => .error "no SVG element found in rendered output"
    | some svg => .ok (serializeSVG (extractSVGFitTransform svg))

/-! ## Bounds query and raster/print capture -/

/-- What the bounds page script computes (renderer.go, `getSVGBounds`):
the floored/ceiled `getBoundingClientRect` box when the vector element
exists, and the literal fallback `\x7bx:0, y:0, width:800, height:600\x7d`
when `document.querySelector` finds no element. -/
def svgBoundsJS (page : PageState) : clipRect :=
  match page.svg with
  | none => ⟨0, 0, 800, 600⟩
  | some svg => ⟨(⌊svg.rect.x⌋ : ℤ), (⌊svg.rect.y⌋ : ℤ), (⌈svg.rect.width⌉ : ℤ), (⌈svg.rect.height⌉ : ℤ)⟩

/-- `renderer.getSVGBounds` (renderer.go): the Evaluate round trip may
fail at transport level; otherwise the JSON produced by the page script
round-trips through `json.Unmarshal` unchanged. -/
def getSVGBounds (env : CdpEnv) (page : PageState) : Except String clipRect :=
  match env.boundsEval with
  | .error e => .error ("failed to get SVG bounds: " ++ e)
  | .ok _ => .ok (svgBoundsJS page)

/-- Go `int64(f)` truncation; every argument at the call sites is a
nonnegative integer, where truncation and floor agree. -/
def goInt64 (q : ℚ) : Int := ⌊q⌋

/-- Result of `renderer.capturePNG`: the returned bytes-or-error and the
final emulation state. -/
structure CaptureOutcome where
  result : Except String String
  emu : EmuState

/-- `renderer.capturePNG` (renderer.go).  Steps, in source order: bounds
query; viewport resize; (sleep — no observable effect); if the background
is the sentinel `"transparent"`, set the default-background override to
fully-transparent black; capture; if transparent, best-effort reset of the
override (its error is discarded).  A failing capture returns before the
reset is attempted. -/
def capturePNG (env : CdpEnv) (page : PageState) (opts : RenderOpts) (emu : EmuState) :
    CaptureOutcome :=
  match getSVGBounds env page with
  | .error e => ⟨.error e, emu⟩
  | .ok bounds =>
    match env.resizeViewport with
    | .error e => ⟨.error ("failed to resize viewport for PNG: " ++ e), emu⟩
    | .ok _ =>
      let emu1 : EmuState :=
        { emu with
          viewportWidth := goInt64 (bounds.x + bounds.width),
          viewportHeight := goInt64 (bounds.y + bounds.height) }
      match (if opts.BackgroundColor = "transparent" then env.setBgOverride else .ok ()) with
      | .error e => ⟨.error ("failed to set transparent background: " ++ e), emu1⟩
      | .ok _ =>
        let emu2 : EmuState :=
          if opts.BackgroundColor = "transparent" then
            { emu1 with bgOverride := some transparentBlack }
          else emu1
        match env.captureShot with
        | .error e => ⟨.error ("failed to capture PNG: " ++ e), emu2⟩
        | .ok buf =>
          let emu3 : EmuState :=
            if opts.BackgroundColor = "transparent" then
              match env.resetBgOverride with
              | .ok _ => { emu2 with bgOverride := none }
              | .error _ => emu2
            else emu2
          ⟨.ok buf, emu3⟩

/-- `page.PrintToPDF` parameters; `none` means the parameter is not set
and the browser default applies. -/
structure PrintParams where
  paperWidth : Option ℚ
  paperHeight : Option ℚ
  marginTop : Option ℚ
  marginBottom : Option ℚ
  marginLeft : Option ℚ
  marginRight : Option ℚ
  pageRanges : Option String
  printBackground : Bool
deriving DecidableEq

/-- `page.PrintToPDF()` before any `With…` call. -/
def printToPDFDefaults : PrintParams :=
  ⟨none, none, none, none, none, none, none, false⟩

/-- Result of `renderer.capturePDF`: bytes-or-error, final emulation
state, and the parameters passed to the `PrintToPDF` protocol call
(`none` when an earlier step failed and the call was never issued). -/
structure PDFOutcome where
  result : Except String String
  emu : EmuState
  printedWith : Option PrintParams

/-- `renderer.capturePDF` (renderer.go).  Steps, in source order: if the
background is `"transparent"`, set the override; if `PdfFit`, query the
bounds and set explicit paper size `(ceil(w)+2x)/96 × (ceil(h)+2y)/96`
inches, all margins zero, page range `"1-1"`; always print with
background; print; if transparent, best-effort reset (error discarded).
A failing bounds query or print call returns before the reset. -/
def capturePDF (env : CdpEnv) (page : PageState) (opts : RenderOpts) (emu : EmuState) :
    PDFOutcome :=
  match (if opts.BackgroundColor = "transparent" then env.setBgOverride else .ok ()) with
  | .error e => ⟨.error ("failed to set transparent background: " ++ e), emu, none⟩
  | .ok _ =>
    let emu1 : EmuState :=
      if opts.BackgroundColor = "transparent" then
        { emu with bgOverride := some transparentBlack }
      else emu
    match (if opts.PdfFit then (getSVGBounds env page).map some else .ok none) with
    | .error e => ⟨.error e, emu1, none⟩
    | .ok obounds =>
      let printParams : PrintParams :=
        match obounds with
        | some bounds =>
          let widthInches := ((⌈bounds.width⌉ : ℚ) + bounds.x * 2) / 96
          let heightInches := ((⌈bounds.height⌉ : ℚ) + bounds.y * 2) / 96
          { printToPDFDefaults with
            paperWidth := some widthInches,
            paperHeight := some heightInches,
            marginTop := some 0,
            marginBottom := some 0,
            marginLeft := some 0,
            marginRight := some 0,
            pageRanges := some "1-1" }
        | none => printToPDFDefaults
      let printParams := { printParams with printBackground := true }
      match env.printPDF with
      | .error e => ⟨.error ("failed to generate PDF: " ++ e), emu1, some printParams⟩
      | .ok buf =>
        let emu2 : EmuState :=
          if opts.BackgroundColor = "transparent" then
            match env.resetBgOverride with
            | .ok _ => { emu1 with bgOverride := none }
            | .error _ => emu1
          else emu1
        ⟨.ok buf, emu2, some printParams⟩

/-! ## The completion record as `JSON.stringify` renders it

`Render` reads `JSON.stringify(window.__mmd_result || \x7b\x7d)`.
JavaScript string escaping: `"`, `\`, `\b`, `\f`, `\n`, `\r`, `\t`, and
`\u00XX` for the remaining control characters. -/

def jsJSONEscapeChar (c : Char) : List Char :=
  if c = '"' then ['\\', '"']
  else if c = '\\' then ['\\', '\\']
  else if c.toNat = 8 then ['\\', 'b']
  else if c.toNat = 12 then ['\\', 'f']
  else if c = '\n' then ['\\', 'n']
  else if c = '\r' then ['\\', 'r']
  else if c = '\t' then ['\\', 't']
  else if c.toNat < 32 then ['\\', 'u', '0', '0', hexDigit (c.toNat / 16), hexDigit (c.toNat % 16)]
  else [c]

def jsJSONQuote (s : String) : String :=
  ⟨'"' :: (s.data.flatMap jsJSONEscapeChar) ++ ['"']⟩

def jsNullable : Option String → String
  | none => "null"
  | some s => jsJSONQuote s

/-- The text `JSON.stringify(window.__mmd_result || \x7b\x7d)` evaluates
to, given the slot's content (property order is the driver script's
insertion order). -/
def mmdResultJSON : Option MmdResult → String
  | none => "\x7b\x7d"
  | some r =>
    if r.success then
      "\x7b\"title\":" ++ jsNullable r.title ++ ",\"desc\":" ++ jsNullable r.desc ++
        ",\"success\":true\x7d"
    else
      "\x7b\"error\":" ++ jsJSONQuote r.error ++ ",\"success\":false\x7d"

/-! ## `renderer.Render` -/

/-- `renderer.RenderResult` (renderer.go). -/
structure RenderResult where
  Data : String
  Title : String
  Desc : String
deriving DecidableEq

/-- The per-call deadline `Render` installs with `context.WithTimeout`
(renderer.go line 45: `60*time.Second`); it bounds every subsequent round
trip of the call, in particular the `WaitReady("#container svg")` wait. -/
def renderTimeoutSeconds : Nat := 60

/-- Emulation state of a freshly opened tab: no viewport override applied
yet, no background-color override. -/
def initialEmu : EmuState := ⟨0, 0, none⟩

/-- `renderer.Render` (renderer.go), over the round-trip environment and
the page state the driver script produces.  Returns the Go result-or-error
and the final browser-side emulation state of the tab. -/
def Render (env : CdpEnv) (page : PageState) (web : WebAssets) (definition : String)
    (outputFormat : String) (opts : RenderOpts) : Except String RenderResult × EmuState :=
  match env.browserStart with
  | .error e => (.error ("failed to start browser: " ++ e), initialEmu)
  | .ok _ =>
  match BuildPageHTML web definition opts with
  | .error e => (.error ("failed to build page HTML: " ++ e), initialEmu)
  | .ok _pageHTML =>
  match env.setViewport with
  | .error e => (.error ("failed to set viewport: " ++ e), initialEmu)
  | .ok _ =>
  let emu : EmuState :=
    { initialEmu with viewportWidth := opts.Width, viewportHeight := opts.Height }
  match env.navigate with
  | .error e => (.error ("failed to navigate: " ++ e), emu)
  | .ok _ =>
  match env.setContent with
  | .error e => (.error ("failed to set page content: " ++ e), emu)
  | .ok _ =>
  match env.waitReady with
  | .error we =>
    let resultJSON :=
      match env.timeoutEval with
      | .ok _ => mmdResultJSON page.mmdResult
      | .error _ => ""
    (.error ("mermaid rendering failed (waited for SVG): " ++ we ++
      "\nrender result: " ++ resultJSON), emu)
  | .ok _ =>
  match env.resultEval with
  | .error e => (.error ("failed to get render result: " ++ e), emu)
  | .ok _ =>
  let renderResult : MmdResult := (page.mmdResult).getD ⟨none, none, false, ""⟩
  if renderResult.success then
    let result0 : RenderResult := ⟨"", (renderResult.title).getD "", (renderResult.desc).getD ""⟩
    if outputFormat = "svg" then
      match (if opts.SvgFit then extractSVGFit env page else extractSVG env page) with
      | .error e => (.error e, emu)
      | .ok data => (.ok { result0 with Data := data }, emu)
    else if outputFormat = "png" then
      let out := capturePNG env page opts emu
      match out.result with
      | .error e => (.error e, out.emu)
      | .ok data => (.ok { result0 with Data := data }, out.emu)
    else if outputFormat = "pdf" then
      let out := capturePDF env page opts emu
      match out.result with
      | .error e => (.error e, out.emu)
      | .ok data => (.ok { result0 with Data := data }, out.emu)
    else
      (.error ("unsupported output format: " ++ outputFormat), emu)
  else
    (.error ("mermaid rendering error: " ++ renderResult.error), emu)

/-! ## `internal/renderer/browser.go` -/

/-- Externally observable actions of the session manager. -/
inductive BrowserAction where
  | launch
  | cancelBrowserCtx
  | cancelAllocCtx
deriving DecidableEq

/-- `renderer.Browser` (browser.go): the `started` flag, whether the two
cancel functions have been assigned, and a generation counter standing for
the identity of the current `browserCtx` handle (incremented each time
`NewExecAllocator`/`NewContext` create a fresh one). -/
structure BrowserState where
  started : Bool
  gen : Nat
  hasBrowserCancel : Bool
  hasAllocCancel : Bool
deriving DecidableEq

/-- `renderer.NewBrowser` (browser.go): never started, no cancel
functions assigned. -/
def NewBrowser : BrowserState := ⟨false, 0, false, false⟩

/-- Whether the no-op `chromedp.Run` that forces the browser to start
succeeds. -/
structure BrowserEnv where
  launch : Except String Unit

/-- `(b *Browser) Context` (browser.go): return the existing handle when
started; otherwise create allocator and context (assigning both cancel
functions), force a launch, and either mark started or cancel the
allocator and report the error (leaving `started` false). -/
def Browser.Context (env : BrowserEnv) (b : BrowserState) :
    Except String Nat × BrowserState × List BrowserAction :=
  if b.started then (.ok b.gen, b, [])
  else
    let b1 : BrowserState :=
      { b with gen := b.gen + 1, hasBrowserCancel := true, hasAllocCancel := true }
    match env.launch with
    | .ok _ => (.ok b1.gen, { b1 with started := true }, [.launch])
    | .error e => (.error e, b1, [.launch, .cancelAllocCtx])

/-- `(b *Browser) Close` (browser.go): a no-op unless started; otherwise
invoke the non-nil cancel functions and clear `started`. -/
def Browser.Close (b : BrowserState) : BrowserState × List BrowserAction :=
  if b.started then
    ({ b with started := false },
      (if b.hasBrowserCancel then [BrowserAction.cancelBrowserCtx] else []) ++
      (if b.hasAllocCancel then [BrowserAction.cancelAllocCtx] else []))
  else (b, [])

/-! ## Helper lemmas -/

theorem strAppend_assoc (a b c : String) : a ++ b ++ c = a ++ (b ++ c) := by
  cases a with
  | mk la =>
    cases b with
    | mk lb =>
      cases c with
      | mk lc =>
        show String.mk (la ++ lb ++ lc) = String.mk (la ++ (lb ++ lc))
        rw [List.append_assoc]

theorem hexDigit_ne_angle (n : Nat) : hexDigit n ≠ '<' ∧ hexDigit n ≠ '>' := by
  unfold hexDigit
  split <;> decide

theorem listSafe {l : List Char} (hl : ∀ x ∈ l, x ≠ '<' ∧ x ≠ '>') {ch : Char}
    (hch : ch ∈ l) : ch ≠ '<' ∧ ch ≠ '>' := hl ch hch

theorem goJSONEscapeChar_no_angle (c : Char) :
    ∀ ch ∈ goJSONEscapeChar c, ch ≠ '<' ∧ ch ≠ '>' := by
  intro ch hch
  rw [goJSONEscapeChar] at hch
  by_cases h1 : c = '"'
  · rw [if_pos h1] at hch; exact listSafe (by decide) hch
  rw [if_neg h1] at hch
  by_cases h2 : c = '\\'
  · rw [if_pos h2] at hch; exact listSafe (by decide) hch
  rw [if_neg h2] at hch
  by_cases h3 : c = '\n'
  · rw [if_pos h3] at hch; exact listSafe (by decide) hch
  rw [if_neg h3] at hch
  by_cases h4 : c = '\r'
  · rw [if_pos h4] at hch; exact listSafe (by decide) hch
  rw [if_neg h4] at hch
  by_cases h5 : c = '\t'
  · rw [if_pos h5] at hch; exact listSafe (by decide) hch
  rw [if_neg h5] at hch
  by_cases h6 : c = '<'
  · rw [if_pos h6] at hch; exact listSafe (by decide) hch
  rw [if_neg h6] at hch
  by_cases h7 : c = '>'
  · rw [if_pos h7] at hch; exact listSafe (by decide) hch
  rw [if_neg h7] at hch
  by_cases h8 : c = '&'
  · rw [if_pos h8] at hch; exact listSafe (by decide) hch
  rw [if_neg h8] at hch
  by_cases h9 : c.toNat < 32
  · rw [if_pos h9] at hch
    refine listSafe ?_ hch
    intro x hx
    rcases List.mem_cons.mp hx with rfl | hx
    · decide
    rcases List.mem_cons.mp hx with rfl | hx
    · decide
    rcases List.mem_cons.mp hx with rfl | hx
    · decide
    rcases List.mem_cons.mp hx with rfl | hx
    · decide
    rcases List.mem_cons.mp hx with rfl | hx
    · exact hexDigit_ne_angle _
    rcases List.mem_cons.mp hx with rfl | hx
    · exact hexDigit_ne_angle _
    exact absurd hx (List.not_mem_nil x)
  rw [if_neg h9] at hch
  by_cases h10 : c.toNat = 8232
  · rw [if_pos h10] at hch; exact listSafe (by decide) hch
  rw [if_neg h10] at hch
  by_cases h11 : c.toNat = 8233
  · rw [if_pos h11] at hch; exact listSafe (by decide) hch
  rw [if_neg h11] at hch
  rcases List.mem_singleton.mp hch with rfl
  exact ⟨h6, h7⟩

theorem goJSONQuote_no_angle (s : String) :
    ∀ ch ∈ (goJSONQuote s).data, ch ≠ '<' ∧ ch ≠ '>' := by
  intro ch hch
  have hch2 : ch = '"' ∨ ch ∈ s.data.flatMap goJSONEscapeChar ∨ ch = '"' := by
    have hdata : (goJSONQuote s).data = '"' :: (s.data.flatMap goJSONEscapeChar ++ ['"']) := rfl
    rw [hdata] at hch
    rcases List.mem_cons.mp hch with h | h
    · exact Or.inl h
    · rcases List.mem_append.mp h with h | h
      · exact Or.inr (Or.inl h)
      · exact Or.inr (Or.inr (List.mem_singleton.mp h))
  rcases hch2 with rfl | h | rfl
  · decide
  · obtain ⟨c, _, hc⟩ := List.mem_flatMap.mp h
    exact goJSONEscapeChar_no_angle c ch hc
  · decide

/-! ## Concrete fixtures for witnesses and counterexamples -/

/-- Environment in which every round trip succeeds. -/
def envAllOk : CdpEnv :=
  ⟨.ok (), .ok (), .ok (), .ok (), .ok (), .ok (), .ok (), .ok (), .ok (), .ok (),
    .ok (), .ok "PNGDATA", .ok (), .ok "PDFDATA"⟩

/-- Environment in which exactly the capture/print round trips fail. -/
def envCaptureFails : CdpEnv :=
  { envAllOk with captureShot := .error "boom", printPDF := .error "boom" }

def svgSample : SVGElement :=
  ⟨some "0 0 100 50", some "300", some "150", some "100%", ⟨7, 5, 100, 50⟩⟩

def pageWithSvg : PageState := ⟨some svgSample, some ⟨some "T", some "D", true, ""⟩⟩

def pageNoSvg : PageState := ⟨none, some ⟨none, none, true, ""⟩⟩

def optsPlain : RenderOpts :=
  ⟨[("theme", GoValue.str "default")], "white", "", "", 800, 600, 1, false, false, []⟩

def optsTransparent : RenderOpts := { optsPlain with BackgroundColor := "transparent" }

def optsPdfFit : RenderOpts := { optsPlain with PdfFit := true }

def webSample : WebAssets := ⟨"MERMAIDJS", "ZENUMLJS"⟩

def browserStarted : BrowserState := ⟨true, 3, true, true⟩

/-! ## Claims -/

/-- C8: `Browser.Close` is idempotent and safe in every session state:
called on a never-started session it is a no-op that leaves the state
unchanged, and called a second time after a successful close it changes
nothing and performs no further termination actions. -/
theorem c8_close_idempotent :
    Browser.Close NewBrowser = (NewBrowser, []) ∧
    ∀ b : BrowserState,
      Browser.Close (Browser.Close b).1 = ((Browser.Close b).1, []) := by
  constructor
  · rfl
  · intro b
    by_cases hb : b.started <;> simp [Browser.Close, hb]

/-- C10: after a successful `Browser.Close` the `started` flag is false, so
a subsequent `Browser.Context` takes the launch path (it emits a launch,
rather than returning the closed handle) and, when the launch round trip
succeeds, returns a fresh handle distinct from the closed one with the
session marked started again. -/
theorem c10_reusable_after_close (env : BrowserEnv) (b : BrowserState)
    (hs : b.started = true) :
    (Browser.Close b).1.started = false ∧
    BrowserAction.launch ∈ (Browser.Context env (Browser.Close b).1).2.2 ∧
    (env.launch = .ok () →
      (Browser.Context env (Browser.Close b).1).1 = .ok (b.gen + 1) ∧
      (Browser.Context env (Browser.Close b).1).2.1.started = true ∧
      b.gen + 1 ≠ b.gen) := by
  have hclose : (Browser.Close b).1 = { b with started := false } := by
    simp [Browser.Close, hs]
  refine ⟨by rw [hclose], ?_, ?_⟩
  · rw [hclose]
    cases hl : env.launch with
    | ok u => simp [Browser.Context, hl]
    | error e => simp [Browser.Context, hl]
  · intro hl
    rw [hclose]
    simp [Browser.Context, hl]

/-- C10 witness: a started session, closed, is relaunchable. -/
theorem c10_witness :
    (Browser.Close browserStarted).1.started = false ∧
    BrowserAction.launch ∈
      (Browser.Context ⟨.ok ()⟩ (Browser.Close browserStarted).1).2.2 ∧
    ((⟨.ok ()⟩ : BrowserEnv).launch = .ok () →
      (Browser.Context ⟨.ok ()⟩ (Browser.Close browserStarted).1).1 =
        .ok (browserStarted.gen + 1) ∧
      (Browser.Context ⟨.ok ()⟩ (Browser.Close browserStarted).1).2.1.started = true ∧
      browserStarted.gen + 1 ≠ browserStarted.gen) :=
  c10_reusable_after_close ⟨.ok ()⟩ browserStarted rfl

/-- C6: `BuildPageHTML` returns an error precisely when the configuration
mapping cannot be JSON-serialized; no other input can make it fail. -/
theorem c6_build_error_iff_config (web : WebAssets) (definition : String)
    (opts : RenderOpts) :
    (∃ e, BuildPageHTML web definition opts = .error e) ↔
    (∃ e, MermaidConfig.ToJSON opts.MermaidConfig = .error e) := by
  unfold BuildPageHTML
  cases h : MermaidConfig.ToJSON opts.MermaidConfig <;> simp

/-- C2 counterexample: a concrete png and pdf request in which the bounds
query cannot locate the vector element (`pageNoSvg`); `getSVGBounds`
returns the substitute rectangle (0, 0, 800, 600) instead of failing, and
both capture strategies proceed with it to a successful capture — the pdf
fit path even derives its paper size 25/3 × 25/4 inches from the
substitute rectangle. -/
theorem c2_counterexample :
    getSVGBounds envAllOk pageNoSvg = .ok ⟨0, 0, 800, 600⟩ ∧
    (capturePNG envAllOk pageNoSvg optsPlain initialEmu).result = .ok "PNGDATA" ∧
    (capturePDF envAllOk pageNoSvg optsPdfFit initialEmu).result = .ok "PDFDATA" ∧
    (capturePDF envAllOk pageNoSvg optsPdfFit initialEmu).printedWith = some
      ⟨some (25/3), some (25/4), some 0, some 0, some 0, some 0, some "1-1", true⟩ := by
  refine ⟨rfl, rfl, rfl, ?_⟩
  simp [capturePDF, getSVGBounds, svgBoundsJS, envAllOk, pageNoSvg, optsPdfFit, optsPlain,
    Except.map, printToPDFDefaults]
  norm_num

/-- C2 (amended): when the bounding-rectangle query cannot locate the
vector element, `getSVGBounds` does not fail — it returns the substitute
rectangle (0, 0, 800, 600) — and the raster and print strategies proceed
with that rectangle. -/
theorem c2_bounds_fallback (env : CdpEnv) (page : PageState) (opts : RenderOpts)
    (emu : EmuState) (buf : String)
    (hnosvg : page.svg = none) (hbounds : env.boundsEval = .ok ()) :
    getSVGBounds env page = .ok ⟨0, 0, 800, 600⟩ ∧
    (env.resizeViewport = .ok () → opts.BackgroundColor ≠ "transparent" →
      env.captureShot = .ok buf →
      (capturePNG env page opts emu).result = .ok buf) ∧
    (opts.PdfFit = true → opts.BackgroundColor ≠ "transparent" →
      env.printPDF = .ok buf →
      (capturePDF env page opts emu).result = .ok buf ∧
      (capturePDF env page opts emu).printedWith = some
        ⟨some (25/3), some (25/4), some 0, some 0, some 0, some 0, some "1-1", true⟩) := by
  have hb : getSVGBounds env page = .ok ⟨0, 0, 800, 600⟩ := by
    simp [getSVGBounds, hbounds, svgBoundsJS, hnosvg]
  refine ⟨hb, ?_, ?_⟩
  · intro hr hnt hcap
    simp [capturePNG, hb, hr, hnt, hcap]
  · intro hfit hnt hprint
    have h : (capturePDF env page opts emu).result = .ok buf ∧
        (capturePDF env page opts emu).printedWith = some
          ⟨some (25/3), some (25/4), some 0, some 0, some 0, some 0, some "1-1", true⟩ := by
      simp [capturePDF, hb, hfit, hnt, hprint, printToPDFDefaults, Except.map]
      norm_num
    exact h

/-- C2 witness for the amended claim. -/
theorem c2_witness :
    getSVGBounds envAllOk pageNoSvg = .ok ⟨0, 0, 800, 600⟩ ∧
    (capturePNG envAllOk pageNoSvg optsPlain initialEmu).result = .ok "PNGDATA" :=
  ⟨(c2_bounds_fallback envAllOk pageNoSvg optsPlain initialEmu "PNGDATA" rfl rfl).1,
   (c2_bounds_fallback envAllOk pageNoSvg optsPlain initialEmu "PNGDATA" rfl rfl).2.1
     rfl (by decide) rfl⟩

/-- C7: for an svg render with the fit flag, when the vector root's
viewBox splits on whitespace into exactly four components x y W H, the
emitted markup's root width/height attributes are exactly W and H and the
max-width style constraint is removed before serialization; when the
viewBox is absent or does not split into four components, the element is
serialized unmodified. -/
theorem c7_svgfit (env : CdpEnv) (page : PageState) (svg : SVGElement)
    (hsvg : page.svg = some svg) (hev : env.extractEval = .ok ()) :
    (∀ vb x y w h, svg.viewBox = some vb → jsSplitWs vb = [x, y, w, h] →
      (extractSVGFitTransform svg).width = some w ∧
      (extractSVGFitTransform svg).height = some h ∧
      (extractSVGFitTransform svg).styleMaxWidth = none ∧
      extractSVGFit env page = .ok (serializeSVG (extractSVGFitTransform svg))) ∧
    (svg.viewBox = none → extractSVGFit env page = .ok (serializeSVG svg)) ∧
    (∀ vb, svg.viewBox = some vb → (jsSplitWs vb).length ≠ 4 →
      extractSVGFit env page = .ok (serializeSVG svg)) := by
  refine ⟨?_, ?_, ?_⟩
  · intro vb x y w h hvb hsplit
    have htr : extractSVGFitTransform svg =
        { svg with width := some w, height := some h, styleMaxWidth := none } := by
      rw [extractSVGFitTransform, hvb]
      simp [hsplit]
    refine ⟨by rw [htr], by rw [htr], by rw [htr], ?_⟩
    simp [extractSVGFit, hev, hsvg]
  · intro hvb
    have htr : extractSVGFitTransform svg = svg := by
      rw [extractSVGFitTransform, hvb]
    simp [extractSVGFit, hev, hsvg, htr]
  · intro vb hvb hlen
    have htr : extractSVGFitTransform svg = svg := by
      rw [extractSVGFitTransform, hvb]
      simp [hlen]
    simp [extractSVGFit, hev, hsvg, htr]

/-- C7 witness: a viewBox of "0 0 100 50" yields width 100, height 50. -/
theorem c7_witness :
    (extractSVGFitTransform svgSample).width = some "100" ∧
    (extractSVGFitTransform svgSample).height = some "50" ∧
    (extractSVGFitTransform svgSample).styleMaxWidth = none ∧
    extractSVGFit envAllOk pageWithSvg =
      .ok (serializeSVG (extractSVGFitTransform svgSample)) :=
  (c7_svgfit envAllOk pageWithSvg svgSample rfl rfl).1 "0 0 100 50" "0" "0" "100" "50"
    rfl (by decide)

/-- C4: on the pdf path with the fit flag and bounding rectangle
(x, y, w, h), the print call receives explicit paper width
(ceil(w) + 2x)/96 and paper height (ceil(h) + 2y)/96 inches, all four
margins zero, and page range restricted to the first page; without the
flag no explicit paper size, margin, or page range is set. -/
theorem c4_pdf_print_params (env : CdpEnv) (page : PageState) (opts : RenderOpts)
    (emu : EmuState)
    (hbg : opts.BackgroundColor = "transparent" → env.setBgOverride = .ok ())
    (hbounds : env.boundsEval = .ok ()) :
    (opts.PdfFit = true →
      (capturePDF env page opts emu).printedWith = some
        { paperWidth := some (((⌈(svgBoundsJS page).width⌉ : ℚ) + (svgBoundsJS page).x * 2) / 96),
          paperHeight := some (((⌈(svgBoundsJS page).height⌉ : ℚ) + (svgBoundsJS page).y * 2) / 96),
          marginTop := some 0, marginBottom := some 0,
          marginLeft := some 0, marginRight := some 0,
          pageRanges := some "1-1", printBackground := true }) ∧
    (opts.PdfFit = false →
      (capturePDF env page opts emu).printedWith =
        some { printToPDFDefaults with printBackground := true }) := by
  have hsetbg : (if opts.BackgroundColor = "transparent" then env.setBgOverride
      else Except.ok ()) = .ok () := by
    by_cases hb : opts.BackgroundColor = "transparent"
    · rw [if_pos hb]; exact hbg hb
    · rw [if_neg hb]
  constructor
  · intro hfit
    cases hp : env.printPDF with
    | ok buf =>
      simp [capturePDF, hsetbg, hfit, getSVGBounds, hbounds, hp, Except.map, printToPDFDefaults]
    | error e =>
      simp [capturePDF, hsetbg, hfit, getSVGBounds, hbounds, hp, Except.map, printToPDFDefaults]
  · intro hfit
    cases hp : env.printPDF with
    | ok buf =>
      simp [capturePDF, hsetbg, hfit, hp, printToPDFDefaults]
    | error e =>
      simp [capturePDF, hsetbg, hfit, hp, printToPDFDefaults]

/-- C4 witness: fit-to-content on a 100×50 rectangle at offset (7, 5). -/
theorem c4_witness :
    (capturePDF envAllOk pageWithSvg optsPdfFit initialEmu).printedWith = some
      { paperWidth :=
          some (((⌈(svgBoundsJS pageWithSvg).width⌉ : ℚ) + (svgBoundsJS pageWithSvg).x * 2) / 96),
        paperHeight :=
          some (((⌈(svgBoundsJS pageWithSvg).height⌉ : ℚ) + (svgBoundsJS pageWithSvg).y * 2) / 96),
        marginTop := some 0, marginBottom := some 0,
        marginLeft := some 0, marginRight := some 0,
        pageRanges := some "1-1", printBackground := true } :=
  (c4_pdf_print_params envAllOk pageWithSvg optsPdfFit initialEmu (fun _ => rfl) rfl).1 rfl

/-- C9: a render call that reaches the extraction step with an output
format other than "svg", "png" or "pdf" returns the "unsupported output
format" error (no result), instead of producing output. -/
theorem c9_unsupported_format (env : CdpEnv) (page : PageState) (web : WebAssets)
    (definition outputFormat : String) (opts : RenderOpts) (cfg : String) (r : MmdResult)
    (h1 : env.browserStart = .ok ())
    (h2 : MermaidConfig.ToJSON opts.MermaidConfig = .ok cfg)
    (h3 : env.setViewport = .ok ()) (h4 : env.navigate = .ok ())
    (h5 : env.setContent = .ok ()) (h6 : env.waitReady = .ok ())
    (h7 : env.resultEval = .ok ())
    (h8 : page.mmdResult = some r) (h9 : r.success = true)
    (hsvg : outputFormat ≠ "svg") (hpng : outputFormat ≠ "png")
    (hpdf : outputFormat ≠ "pdf") :
    (Render env page web definition outputFormat opts).1 =
      .error ("unsupported output format: " ++ outputFormat) := by
  unfold Render BuildPageHTML
  simp [h1, h2, h3, h4, h5, h6, h7, h8, h9, hsvg, hpng, hpdf]

/-- C9 witness: output format "jpg" is rejected at the extraction step. -/
theorem c9_witness :
    (Render envAllOk pageWithSvg webSample "graph TD; A-->B;" "jpg" optsPlain).1 =
      .error ("unsupported output format: " ++ "jpg") :=
  c9_unsupported_format envAllOk pageWithSvg webSample "graph TD; A-->B;" "jpg" optsPlain
    (MermaidConfig.ToJSON optsPlain.MermaidConfig).toOption.get! ⟨some "T", some "D", true, ""⟩
    rfl rfl rfl rfl rfl rfl rfl rfl rfl (by decide) (by decide) (by decide)

/-- C5: the completion wait is bounded by the call's 60-second deadline,
and when the wait fails the driver still reads the completion-record slot
and fails with a timeout error whose message carries the completion-record
content that was found. -/
theorem c5_timeout_reads_record (env : CdpEnv) (page : PageState) (web : WebAssets)
    (definition outputFormat : String) (opts : RenderOpts) (cfg we : String)
    (h1 : env.browserStart = .ok ())
    (h2 : MermaidConfig.ToJSON opts.MermaidConfig = .ok cfg)
    (h3 : env.setViewport = .ok ()) (h4 : env.navigate = .ok ())
    (h5 : env.setContent = .ok ())
    (hw : env.waitReady = .error we) (ht : env.timeoutEval = .ok ()) :
    renderTimeoutSeconds = 60 ∧
    (Render env page web definition outputFormat opts).1 =
      .error ("mermaid rendering failed (waited for SVG): " ++ we ++
        "\nrender result: " ++ mmdResultJSON page.mmdResult) ∧
    ∃ a b, (Render env page web definition outputFormat opts).1 =
      .error (a ++ mmdResultJSON page.mmdResult ++ b) := by
  have hmain : (Render env page web definition outputFormat opts).1 =
      .error ("mermaid rendering failed (waited for SVG): " ++ we ++
        "\nrender result: " ++ mmdResultJSON page.mmdResult) := by
    unfold Render BuildPageHTML
    simp [h1, h2, h3, h4, h5, hw, ht]
  refine ⟨rfl, hmain, "mermaid rendering failed (waited for SVG): " ++ we ++
    "\nrender result: ", "", ?_⟩
  rw [hmain, strAppend_assoc, strAppend_assoc]
  have hempty : ∀ s : String, s ++ "" = s := by
    intro s
    cases s with
    | mk l =>
      show String.mk (l ++ []) = String.mk l
      rw [List.append_nil]
  rw [hempty]

def envWaitFails : CdpEnv := { envAllOk with waitReady := .error "context deadline exceeded" }

def pageFail : PageState := ⟨none, some ⟨none, none, false, "Parse error"⟩⟩

/-- C5 witness: an expired wait surfaces the completion record found in
the slot inside the timeout error message. -/
theorem c5_witness :
    renderTimeoutSeconds = 60 ∧
    (Render envWaitFails pageFail webSample "not a diagram" "svg" optsPlain).1 =
      .error ("mermaid rendering failed (waited for SVG): " ++ "context deadline exceeded" ++
        "\nrender result: " ++ mmdResultJSON pageFail.mmdResult) ∧
    ∃ a b, (Render envWaitFails pageFail webSample "not a diagram" "svg" optsPlain).1 =
      .error (a ++ mmdResultJSON pageFail.mmdResult ++ b) :=
  c5_timeout_reads_record envWaitFails pageFail webSample "not a diagram" "svg" optsPlain
    "\x7b\"theme\":\"default\"\x7d" "context deadline exceeded"
    rfl rfl rfl rfl rfl rfl rfl

/-- C1 counterexample: a concrete transparent-background capture in which
the capture round trip fails; both capture functions return the error with
the default-background override still set to fully-transparent black —
the override is not restored on the error path, contradicting the claim
that it is restored on every execution path. -/
theorem c1_counterexample :
    (capturePNG envCaptureFails pageWithSvg optsTransparent initialEmu).result =
      .error ("failed to capture PNG: " ++ "boom") ∧
    (capturePNG envCaptureFails pageWithSvg optsTransparent initialEmu).emu.bgOverride =
      some transparentBlack ∧
    (capturePDF envCaptureFails pageWithSvg optsTransparent initialEmu).result =
      .error ("failed to generate PDF: " ++ "boom") ∧
    (capturePDF envCaptureFails pageWithSvg optsTransparent initialEmu).emu.bgOverride =
      some transparentBlack ∧
    some transparentBlack ≠ (none : Option RGBA) := by
  refine ⟨?_, ?_, ?_, ?_, by simp⟩
  · simp [capturePNG, getSVGBounds, svgBoundsJS, envCaptureFails, envAllOk, pageWithSvg,
      optsTransparent, optsPlain, svgSample]
  · simp [capturePNG, getSVGBounds, svgBoundsJS, envCaptureFails, envAllOk, pageWithSvg,
      optsTransparent, optsPlain, svgSample]
  · simp [capturePDF, envCaptureFails, envAllOk, optsTransparent, optsPlain]
  · simp [capturePDF, envCaptureFails, envAllOk, optsTransparent, optsPlain]

/-- C1 (amended): for a transparent-background png or pdf capture starting
with no override set, the override is restored after a successful capture
(the reset round trip succeeding); but when the capture or print call
itself returns an error, the function returns immediately with the
override still set to fully-transparent black. -/
theorem c1_bg_override_scope (env : CdpEnv) (page : PageState) (opts : RenderOpts)
    (emu : EmuState)
    (hbg : opts.BackgroundColor = "transparent")
    (h0 : emu.bgOverride = none)
    (hreset : env.resetBgOverride = .ok ()) :
    (∀ buf, env.captureShot = .ok buf →
      (capturePNG env page opts emu).emu.bgOverride = none) ∧
    (∀ buf, env.printPDF = .ok buf → (opts.PdfFit = true → env.boundsEval = .ok ()) →
      (capturePDF env page opts emu).emu.bgOverride = none) ∧
    (∀ e, env.captureShot = .error e → env.boundsEval = .ok () →
      env.resizeViewport = .ok () → env.setBgOverride = .ok () →
      (capturePNG env page opts emu).result = .error ("failed to capture PNG: " ++ e) ∧
      (capturePNG env page opts emu).emu.bgOverride = some transparentBlack) ∧
    (∀ e, env.printPDF = .error e → env.setBgOverride = .ok () →
      (opts.PdfFit = true → env.boundsEval = .ok ()) →
      (capturePDF env page opts emu).result = .error ("failed to generate PDF: " ++ e) ∧
      (capturePDF env page opts emu).emu.bgOverride = some transparentBlack) := by
  refine ⟨?_, ?_, ?_, ?_⟩
  · intro buf hcap
    cases hb : env.boundsEval with
    | error e => simp [capturePNG, getSVGBounds, hb, h0]
    | ok u =>
      cases hr : env.resizeViewport with
      | error e => simp [capturePNG, getSVGBounds, hb, hr, h0]
      | ok v =>
        cases hs : env.setBgOverride with
        | error e => simp [capturePNG, getSVGBounds, hb, hr, hs, hbg, h0]
        | ok w => simp [capturePNG, getSVGBounds, hb, hr, hs, hbg, hcap, hreset]
  · intro buf hprint hbfit
    cases hs : env.setBgOverride with
    | error e => simp [capturePDF, hs, hbg, h0]
    | ok w =>
      cases hfit : opts.PdfFit with
      | false => simp [capturePDF, hs, hbg, hfit, hprint, hreset]
      | true =>
        simp [capturePDF, getSVGBounds, hs, hbg, hfit, hbfit hfit, hprint, hreset, Except.map]
  · intro e hcap hb hr hs
    simp [capturePNG, getSVGBounds, hb, hr, hs, hbg, hcap]
  · intro e hprint hs hbfit
    cases hfit : opts.PdfFit with
    | false => simp [capturePDF, hs, hbg, hfit, hprint]
    | true =>
      simp [capturePDF, getSVGBounds, hs, hbg, hfit, hbfit hfit, hprint, Except.map]

/-- C1 witness for the amended claim: with a successful capture the
override is back to the default afterwards. -/
theorem c1_witness :
    (capturePNG envAllOk pageWithSvg optsTransparent initialEmu).emu.bgOverride = none ∧
    (capturePDF envAllOk pageWithSvg optsTransparent initialEmu).emu.bgOverride = none :=
  ⟨(c1_bg_override_scope envAllOk pageWithSvg optsTransparent initialEmu rfl rfl rfl).1
      "PNGDATA" rfl,
   (c1_bg_override_scope envAllOk pageWithSvg optsTransparent initialEmu rfl rfl rfl).2.1
      "PDFDATA" rfl (fun _ => rfl)⟩

/-- C3: every one of the five interpolated values — configuration mapping,
diagram definition, element id, background color, stylesheet text — is
embedded in the generated page exactly as its JSON encoding, and the
encoding of a string contains no angle bracket, so diagram content cannot
close the surrounding script context. -/
theorem c3_json_embedding (web : WebAssets) (definition : String) (opts : RenderOpts)
    (cfgJSON : String)
    (hcfg : MermaidConfig.ToJSON opts.MermaidConfig = .ok cfgJSON) :
    (∃ a b c d e f, BuildPageHTML web definition opts =
      .ok (a ++ cfgJSON ++ b ++ goJSONQuote definition ++ c ++ goJSONQuote opts.SVGId ++ d ++
        goJSONQuote opts.BackgroundColor ++ e ++ goJSONQuote opts.CSS ++ f)) ∧
    (∀ s : String, ∀ ch ∈ (goJSONQuote s).data, ch ≠ '<' ∧ ch ≠ '>') := by
  refine ⟨⟨pageChunk0 ++ web.MermaidJS ++ pageChunk1 ++ web.MermaidZenUMLJS ++ pageChunk2 ++
      GenerateIconPackJS opts.IconPacks ++ fmtChunk0, fmtChunk1, fmtChunk2, fmtChunk3,
      fmtChunk4, fmtChunk5, ?_⟩, goJSONQuote_no_angle⟩
  unfold BuildPageHTML
  rw [hcfg]

/-- C3 witness: a concrete page embeds the JSON encodings of all five
values. -/
theorem c3_witness :
    (∃ a b c d e f, BuildPageHTML webSample "graph TD; A-->B;" optsPlain =
      .ok (a ++ "\x7b\"theme\":\"default\"\x7d" ++ b ++ goJSONQuote "graph TD; A-->B;" ++ c ++
        goJSONQuote optsPlain.SVGId ++ d ++ goJSONQuote optsPlain.BackgroundColor ++ e ++
        goJSONQuote optsPlain.CSS ++ f)) ∧
    (∀ s : String, ∀ ch ∈ (goJSONQuote s).data, ch ≠ '<' ∧ ch ≠ '>') :=
  c3_json_embedding webSample "graph TD; A-->B;" optsPlain "\x7b\"theme\":\"default\"\x7d" rfl

end MermaidCLI
